import Mathlib

/-!
Verification of the dlv-sim decision-service agents.

The development shallowly embeds the Python sources:
  * src/agents/debt/inference.py  — the rule-based decision engine and its
    line-oriented JSON dispatcher (the only stateful agent in src/);
  * src/agents/alm/inference.py and src/agents/alm/model.py — the stateless
    feed-forward agent and its dispatcher, with the external torch evaluator
    abstracted as a score function;
  * src/agents/debt/model.py — the recurrent actor, with the numeric layers
    abstracted as component functions.

Machine floats are modelled by rationals plus explicit non-finite markers
(`FVal`): the only place the Python code inspects non-finiteness is in the
clamping helpers, after which all arithmetic is on finite values, so rational
arithmetic is the exact real-number semantics of the decision chain.
-/

namespace DlvSim

/-- A Python float value as it can appear after `json.loads` / `float(...)`:
either a finite value (modelled exactly as a rational) or one of the
non-finite markers `nan`, `inf`, `-inf`. -/
inductive FVal where
  | fin (q : ℚ)
  | nan
  | inf
  | ninf
deriving DecidableEq

/-- A JSON value as produced by `json.loads`: `null`, booleans, numbers
(including the non-standard `Infinity` / `NaN` tokens Python accepts),
strings, arrays and objects. -/
inductive JVal where
  | null
  | b (x : Bool)
  | num (v : FVal)
  | str (s : String)
  | arr (xs : List JVal)
  | obj (fields : List (String × JVal))

/-- A single response line of the dispatchers: one of
`{"action": N}`, `{"status": "reset"}`, `{"error": kind}`. -/
inductive Resp where
  | action (n : ℤ)
  | statusReset
  | err (kind : String)
deriving DecidableEq

/-- Python `payload.get(key)` on the dict produced by `json.loads`
(object keys are unique after decoding, so association-list lookup). -/
def getField : List (String × JVal) → String → Option JVal
  | [], _ => none
  | (k, v) :: t, key => if k = key then some v else getField t key

/-- Python `cmd == "s"` where `cmd = payload.get("type")`: true exactly when
the field is present and is the string `s`. -/
def strCmd : Option JVal → String → Bool
  | some (JVal.str t), s => t == s
  | _, _ => false

/-- The payload `{"type": "infer", "obs": v}`. -/
def mkInfer (v : JVal) : List (String × JVal) := [("type", JVal.str "infer"), ("obs", v)]

/-- The payload `{"type": "reset"}`. -/
def mkReset : List (String × JVal) := [("type", JVal.str "reset")]

/-- One raw input line of the stdin loop, abstracted by the outcome of
`line.strip()` and `json.loads`: blank (skipped), malformed JSON, or a parsed
JSON object payload. -/
inductive RawLine where
  | blank
  | malformed
  | parsed (p : List (String × JVal))

namespace Debt

/-- Constant `OBS_DIM` from src/agents/debt/inference.py. -/
def OBS_DIM : ℕ := 10

/-- Constant `LEVERAGE_BOTTOM` from src/agents/debt/inference.py. -/
def LEVERAGE_BOTTOM : ℚ := 1.8

/-- Constant `LEVERAGE_TOP` from src/agents/debt/inference.py. -/
def LEVERAGE_TOP : ℚ := 2.2

/-- Constant `LEVERAGE_RANGE = LEVERAGE_TOP - LEVERAGE_BOTTOM`. -/
def LEVERAGE_RANGE : ℚ := LEVERAGE_TOP - LEVERAGE_BOTTOM

/-- Helper `_zero_center` from src/agents/debt/inference.py: non-finite values map
to 0, finite ones to `max(-1, min(1, (value - 0.5) * 2))`. -/
def zero_center : FVal → ℚ
  | FVal.fin q => max (-1 : ℚ) (min 1 ((q - 0.5) * 2.0))
  | _ => 0

/-- Helper `_clamp01` from src/agents/debt/inference.py: non-finite values map to 0,
finite ones to `max(0, min(1, value))`. -/
def clamp01 : FVal → ℚ
  | FVal.fin q => max (0 : ℚ) (min 1 q)
  | _ => 0

/-- The 10 observation fields unpacked at the top of `_decide_action`, in
source order: leverage_norm, cr_norm, leverage_mean_norm, leverage_slope_norm,
the volatility-to-mean quotient (source name: the field between
leverage_slope_norm and vol_mean), vol_mean, vol_slope_norm, calm_part,
calm_mean, calm_slope_norm. -/
structure Obs10 where
  leverage_norm : FVal
  cr_norm : FVal
  leverage_mean_norm : FVal
  leverage_slope_norm : FVal
  vol_rat : FVal
  vol_mean : FVal
  vol_slope_norm : FVal
  calm_part : FVal
  calm_mean : FVal
  calm_slope_norm : FVal

/-- Clamped `leverage_norm`. -/
def cLeverage (o : Obs10) : ℚ := clamp01 o.leverage_norm

/-- Clamped `cr_norm` (coverage). -/
def cCoverage (o : Obs10) : ℚ := clamp01 o.cr_norm

/-- Clamped `leverage_mean_norm`. -/
def cLeverageMean (o : Obs10) : ℚ := clamp01 o.leverage_mean_norm

/-- Clamped volatility quotient field. -/
def cVolRat (o : Obs10) : ℚ := clamp01 o.vol_rat

/-- Clamped `vol_mean`. -/
def cVolMean (o : Obs10) : ℚ := clamp01 o.vol_mean

/-- Clamped `calm_part`. -/
def cCalm (o : Obs10) : ℚ := clamp01 o.calm_part

/-- Clamped `calm_mean`. -/
def cCalmMean (o : Obs10) : ℚ := clamp01 o.calm_mean

/-- Re-centered `leverage_slope_norm`. -/
def sLeverage (o : Obs10) : ℚ := zero_center o.leverage_slope_norm

/-- Re-centered `vol_slope_norm`. -/
def sVol (o : Obs10) : ℚ := zero_center o.vol_slope_norm

/-- Re-centered `calm_slope_norm`. -/
def sCalm (o : Obs10) : ℚ := zero_center o.calm_slope_norm

/-- Quantity `increase_pressure` from `_decide_action`. -/
def increase_pressure (o : Obs10) : ℚ :=
  (0.35 - cLeverage o) * 2.0 + (cCoverage o - 0.55) * 1.5
    + (cCalm o - cCalmMean o) * 0.8 - |sVol o| * 0.6 - |sCalm o| * 0.4

/-- Quantity `decrease_pressure` from `_decide_action`. -/
def decrease_pressure (o : Obs10) : ℚ :=
  (cLeverage o - 0.65) * 2.0 + (0.45 - cCoverage o) * 1.7
    + (cVolRat o - cVolMean o) * 0.9 + max 0 (sLeverage o) * 0.8 + max 0 (sVol o) * 0.6

/-- Quantity `leverage_gap = leverage_mean_norm - leverage_norm` (clamped). -/
def leverage_gap (o : Obs10) : ℚ := cLeverageMean o - cLeverage o

/-- Quantity `gap_abs = abs(leverage_gap)`. -/
def gap_abs (o : Obs10) : ℚ := |leverage_gap o|

/-- Quantity `calm_delta = abs(calm_part - calm_mean)` (clamped). -/
def calm_delta (o : Obs10) : ℚ := |cCalm o - cCalmMean o|

/-- Quantity `leverage_actual = LEVERAGE_BOTTOM + leverage_norm * LEVERAGE_RANGE`. -/
def leverage_actual (o : Obs10) : ℚ := LEVERAGE_BOTTOM + cLeverage o * LEVERAGE_RANGE

/-- Quantity `leverage_mean_actual = LEVERAGE_BOTTOM + leverage_mean_norm * LEVERAGE_RANGE`
(computed but unused by the source chain, kept for fidelity). -/
def leverage_mean_actual (o : Obs10) : ℚ := LEVERAGE_BOTTOM + cLeverageMean o * LEVERAGE_RANGE

/-- Rule 1 condition of the decision chain. -/
abbrev rule1 (o : Obs10) : Prop := cCoverage o > 0.65 ∧ cVolRat o < 0.9

/-- Rule 2 condition. -/
abbrev rule2 (o : Obs10) : Prop := cCoverage o < 0.48 ∨ cVolRat o > 0.95

/-- Rule 3 condition. -/
abbrev rule3 (o : Obs10) : Prop := sLeverage o > 0.12 ∨ sVol o > 0.12

/-- Rule 4 condition. -/
abbrev rule4 (o : Obs10) : Prop := sLeverage o < -0.12 ∨ sVol o < -0.12

/-- Rule 5 condition. -/
abbrev rule5 (o : Obs10) : Prop :=
  gap_abs o < 0.02 ∧ calm_delta o < 0.03 ∧ |cVolRat o - cVolMean o| < 0.03

/-- Rule 6 condition. -/
abbrev rule6 (o : Obs10) : Prop := leverage_actual o < LEVERAGE_BOTTOM + 0.1 ∧ cCoverage o ≥ 0.52

/-- Rule 7 condition. -/
abbrev rule7 (o : Obs10) : Prop := leverage_actual o > LEVERAGE_TOP - 0.1 ∨ cCoverage o ≤ 0.42

/-- Rule 8 condition. -/
abbrev rule8 (o : Obs10) : Prop := increase_pressure o > 0.4 ∧ decrease_pressure o < 0.2

/-- Rule 9 condition. -/
abbrev rule9 (o : Obs10) : Prop := decrease_pressure o > 0.3 ∧ increase_pressure o < 0.25

/-- Hysteresis condition inside the fallback branch. -/
abbrev smallSlopes (o : Obs10) : Prop := |sLeverage o| < 0.05 ∧ |sVol o| < 0.05

/-- No rule 1-9 fires: the chain reaches the fallback (rule 10) branch. -/
def fallbackReached (o : Obs10) : Prop :=
  ¬rule1 o ∧ ¬rule2 o ∧ ¬rule3 o ∧ ¬rule4 o ∧ ¬rule5 o
    ∧ ¬rule6 o ∧ ¬rule7 o ∧ ¬rule8 o ∧ ¬rule9 o

instance (o : Obs10) : Decidable (fallbackReached o) :=
  inferInstanceAs (Decidable (_ ∧ _ ∧ _ ∧ _ ∧ _ ∧ _ ∧ _ ∧ _ ∧ _))

/-- The `target_action` if/elif chain of `_decide_action`, as a function of
the observation and the `last_action` read from the state
(`state.get("last_action", 1)`). -/
def decideTarget (o : Obs10) (last_action : ℤ) : ℤ :=
  if rule1 o then 2
  else if rule2 o then 3
  else if rule3 o then 3
  else if rule4 o then 2
  else if rule5 o then 1
  else if rule6 o then 2
  else if rule7 o then 3
  else if rule8 o then 2
  else if rule9 o then 3
  else if smallSlopes o then last_action
  else if last_action = 2 ∨ last_action = 3 then 1
  else 1

/-- Function `_decide_action` from src/agents/debt/inference.py: the session state is
the optional stored `last_action` (the dict holds only that key); the chosen
action is written back (`state["last_action"] = target_action`) and returned. -/
def decide_action (o : Obs10) (state : Option ℤ) : ℤ × Option ℤ :=
  (decideTarget o (state.getD 1), some (decideTarget o (state.getD 1)))

end Debt

/-- Numeric value of a list of decimal digit characters. -/
def natOfDigits (cs : List Char) : ℕ :=
  cs.foldl (fun a c => a * 10 + (c.toNat - 48)) 0

/-- Exponent part of a float literal after the `e`: optional sign then at
least one digit, consuming the whole remainder. -/
def parseExpPart (cs : List Char) : Option ℤ :=
  let sg : ℤ × List Char :=
    match cs with
    | '+' :: t => (1, t)
    | '-' :: t => (-1, t)
    | t => (1, t)
  let d := sg.2.span Char.isDigit
  if d.1.isEmpty ∨ ¬d.2.isEmpty then none
  else some (sg.1 * (natOfDigits d.1 : ℤ))

/-- Unsigned float literal: digits, optional fractional part, optional
exponent; at least one digit must appear around the decimal point. The exact
decimal value mantissa * 10^(exponent - fraction length) is assembled with
integer arithmetic and a single mkRat. -/
def parseUnsigned (cs : List Char) : Option ℚ :=
  let ip := cs.span Char.isDigit
  let fp : List Char × List Char :=
    match ip.2 with
    | '.' :: t => t.span Char.isDigit
    | _ => ([], ip.2)
  if ip.1.isEmpty ∧ fp.1.isEmpty then none
  else
    let mant : ℕ := natOfDigits (ip.1 ++ fp.1)
    let val : ℤ → ℚ := fun e =>
      if 0 ≤ e then mkRat (mant * 10 ^ e.toNat) (10 ^ fp.1.length)
      else mkRat mant (10 ^ (fp.1.length + (-e).toNat))
    match fp.2 with
    | [] => some (val 0)
    | 'e' :: t => (parseExpPart t).map val
    | _ => none

/-- Start code points of the decade-aligned Unicode decimal-digit
(category Nd) ranges in the Unicode data CPython 3.11 ships (generated from
its unicodedata module); the character at offset i inside a range has
decimal value i. CPython float() maps every such digit to its ASCII
counterpart before parsing. -/
def ndDigitStarts : List ℕ :=
  [0x30, 0x660, 0x6f0, 0x7c0, 0x966, 0x9e6, 0xa66, 0xae6, 0xb66, 0xbe6,
   0xc66, 0xce6, 0xd66, 0xde6, 0xe50, 0xed0, 0xf20, 0x1040, 0x1090, 0x17e0,
   0x1810, 0x1946, 0x19d0, 0x1a80, 0x1a90, 0x1b50, 0x1bb0, 0x1c40, 0x1c50,
   0xa620, 0xa8d0, 0xa900, 0xa9d0, 0xa9f0, 0xaa50, 0xabf0, 0xff10, 0x104a0,
   0x10d30, 0x11066, 0x110f0, 0x11136, 0x111d0, 0x112f0, 0x11450, 0x114d0,
   0x11650, 0x116c0, 0x11730, 0x118e0, 0x11950, 0x11c50, 0x11d50, 0x11da0,
   0x16a60, 0x16ac0, 0x16b50, 0x1d7ce, 0x1d7d8, 0x1d7e2, 0x1d7ec, 0x1d7f6,
   0x1e140, 0x1e2f0, 0x1e950, 0x1fbf0]

/-- Decimal value of a Unicode decimal digit (category Nd); none for any
other character. -/
def uniDigitVal (c : Char) : Option ℕ :=
  (ndDigitStarts.find? (fun s => decide (s ≤ c.toNat ∧ c.toNat ≤ s + 9))).map
    (fun s => c.toNat - s)

/-- The Py_UNICODE_ISSPACE whitespace set (Python str.isspace on a single
character); consulted by the transform for characters at or above 127, which
it maps to an ASCII space. -/
def pyWhitespace (c : Char) : Bool :=
  [0x9, 0xa, 0xb, 0xc, 0xd, 0x1c, 0x1d, 0x1e, 0x1f, 0x20, 0x85, 0xa0, 0x1680,
   0x2000, 0x2001, 0x2002, 0x2003, 0x2004, 0x2005, 0x2006, 0x2007, 0x2008,
   0x2009, 0x200a, 0x2028, 0x2029, 0x202f, 0x205f, 0x3000].contains c.toNat

/-- The per-character transform CPython float() applies to a string that is
not pure ASCII: characters below 127 pass through unchanged, whitespace at
or above 127 becomes an ASCII space, a Unicode decimal digit becomes its
ASCII digit, and anything else becomes a marker character that can never
parse, so the conversion fails. -/
def transformChar (c : Char) : Char :=
  if c.toNat < 127 then c
  else if pyWhitespace c then ' '
  else
    match uniDigitVal c with
    | some d => Char.ofNat (48 + d)
    | none => '?'

/-- The whitespace the ASCII-level parser of CPython float() strips at both
ends (C isspace): space, tab, and the newline family. Other control
characters, such as 0x1c-0x1f, are not stripped and make the parse fail. -/
def asciiSpace (c : Char) : Bool :=
  [0x9, 0xa, 0xb, 0xc, 0xd, 0x20].contains c.toNat

/-- Leading and trailing ASCII whitespace removed; an interior whitespace
character still fails the parse, as in CPython. -/
def stripSpaces (cs : List Char) : List Char :=
  ((cs.dropWhile asciiSpace).reverse.dropWhile asciiSpace).reverse

/-- Scan for PEP 515 underscore placement with `prev` the character before
the current position: every underscore must sit directly between two
digits. -/
def underscoresGo (prev : Char) : List Char → Bool
  | [] => true
  | '_' :: [] => false
  | '_' :: d :: rest => prev.isDigit && d.isDigit && underscoresGo d rest
  | c :: rest => underscoresGo c rest

/-- PEP 515 validity of underscores in a numeric string: each underscore
stands directly between two digits, so none may lead, trail, double up, or
touch the decimal point, a sign or the exponent letter. -/
def underscoresOK : List Char → Bool
  | [] => true
  | '_' :: _ => false
  | c :: rest => underscoresGo c rest

/-- Python float(s) on a string, as CPython implements it: a string that is
not pure ASCII first goes through the decimal-and-space transform
(`transformChar`); then surrounding ASCII whitespace is stripped, and an
optional sign is followed by either the words inf / infinity / nan (ASCII
case-insensitive) or a decimal literal with optional fraction and exponent,
with PEP 515 underscores allowed between digits and removed. Any other
string raises ValueError, modelled as none. Values of finite literals are
taken exactly as rationals, the file's declared float semantics; CPython
rounds them to the nearest double and turns decimal overflow into an
infinity without raising, so the acceptance boundary is unchanged by this
choice. -/
def parsePyFloat (s : String) : Option FVal :=
  let raw := s.toList
  let t := if raw.all (fun c => decide (c.toNat ≤ 0x7f)) then raw else raw.map transformChar
  let cs0 := (stripSpaces t).map Char.toLower
  let sg : Bool × List Char :=
    match cs0 with
    | '+' :: t => (false, t)
    | '-' :: t => (true, t)
    | t => (false, t)
  if sg.2 = "inf".toList ∨ sg.2 = "infinity".toList then
    some (if sg.1 then FVal.ninf else FVal.inf)
  else if sg.2 = "nan".toList then some FVal.nan
  else if underscoresOK sg.2 then
    (parseUnsigned (sg.2.filter (fun c => !(c == '_')))).map
      (fun q => FVal.fin (if sg.1 then -q else q))
  else none

/-- Python builtin `float(value)` applied to one JSON-decoded element, as in
the validation loop of `_handle_command`: numbers pass through, booleans
coerce to 1.0 / 0.0, strings are parsed as float literals; `None`, lists and
dicts raise TypeError, modelled as `none`. -/
def pyFloat : JVal → Option FVal
  | JVal.b true => some (FVal.fin 1)
  | JVal.b false => some (FVal.fin 0)
  | JVal.num v => some v
  | JVal.str s => parsePyFloat s
  | _ => none

namespace Debt

/-- The element-conversion loop of `_handle_command`: convert each element
with `float(...)`, stopping at the first failure. -/
def pyFloats : List JVal → Option (List FVal)
  | [] => some []
  | x :: xs =>
    match pyFloat x with
    | none => none
    | some v => (pyFloats xs).map (fun l => v :: l)

/-- The tuple unpacking at the top of `_decide_action`: a list of exactly 10
floats yields the observation record. -/
def listToObs : List FVal → Option Obs10
  | [a, b, c, d, e, f, g, h, i, j] => some ⟨a, b, c, d, e, f, g, h, i, j⟩
  | _ => none

/-- Conversion of the raw `obs` elements into the unpacked observation. -/
def parseObs (xs : List JVal) : Option Obs10 := (pyFloats xs).bind listToObs

/-- Function `_handle_command` from src/agents/debt/inference.py: returns the success
flag, the response payload and the new session state. -/
def handle_command (payload : List (String × JVal)) (state : Option ℤ) :
    Bool × Resp × Option ℤ :=
  let cmd := getField payload "type"
  if strCmd cmd "reset" then (true, Resp.statusReset, none)
  else if !(strCmd cmd "infer") then (false, Resp.err "unknown_command", state)
  else
    match getField payload "obs" with
    | some (JVal.arr xs) =>
      if xs.length ≠ OBS_DIM then (false, Resp.err "invalid_observation", state)
      else
        match pyFloats xs with
        | none => (false, Resp.err "invalid_observation", state)
        | some nums =>
          match listToObs nums with
          | none => (false, Resp.err "invalid_observation", state)
          | some o =>
            let r := decide_action o state
            (true, Resp.action r.1, r.2)
    | _ => (false, Resp.err "invalid_observation", state)

/-- The stdin loop of `main` in src/agents/debt/inference.py, over a finite
list of raw lines: blank lines emit nothing, malformed JSON emits
invalid_json and keeps going, parsed payloads go through `handle_command`
threading the session state; returns the emitted responses and the final
state. -/
def runLines : List RawLine → Option ℤ → List Resp × Option ℤ
  | [], st => ([], st)
  | RawLine.blank :: rest, st => runLines rest st
  | RawLine.malformed :: rest, st =>
    let r := runLines rest st
    (Resp.err "invalid_json" :: r.1, r.2)
  | RawLine.parsed p :: rest, st =>
    let h := handle_command p st
    let r := runLines rest h.2.2
    (h.2.1 :: r.1, r.2)

/-- Session states of the rule-based agent: the empty initial dict, and
everything `_handle_command` can produce from a reachable state. -/
inductive Reachable : Option ℤ → Prop
  | init : Reachable none
  | step (p : List (String × JVal)) (st : Option ℤ) :
      Reachable st → Reachable (handle_command p st).2.2

end Debt

namespace Spec

/-- Spec 4.4: fields other than slopes are clamped to [0,1], non-finite
values clamp to 0. -/
def specClamp : FVal → ℚ
  | FVal.fin q => max (0 : ℚ) (min 1 q)
  | _ => 0

/-- Spec 4.4: slope fields are re-centered via f(x) = clamp(-1, 1, (x-0.5)*2),
non-finite values re-center to 0. -/
def specRecenter : FVal → ℚ
  | FVal.fin q => max (-1 : ℚ) (min 1 ((q - 0.5) * 2.0))
  | _ => 0

/-- Spec: normalized leverage, clamped. -/
def leverage (o : Debt.Obs10) : ℚ := specClamp o.leverage_norm

/-- Spec: normalized coverage, clamped. -/
def coverage (o : Debt.Obs10) : ℚ := specClamp o.cr_norm

/-- Spec: mean leverage, clamped. -/
def leverage_mean (o : Debt.Obs10) : ℚ := specClamp o.leverage_mean_norm

/-- Spec: volatility quotient, clamped. -/
def volRat (o : Debt.Obs10) : ℚ := specClamp o.vol_rat

/-- Spec: mean volatility, clamped. -/
def vol_mean (o : Debt.Obs10) : ℚ := specClamp o.vol_mean

/-- Spec: calm fraction, clamped. -/
def calm (o : Debt.Obs10) : ℚ := specClamp o.calm_part

/-- Spec: mean calm fraction, clamped. -/
def calm_mean (o : Debt.Obs10) : ℚ := specClamp o.calm_mean

/-- Spec: leverage slope, re-centered. -/
def leverage_slope (o : Debt.Obs10) : ℚ := specRecenter o.leverage_slope_norm

/-- Spec: volatility slope, re-centered. -/
def vol_slope (o : Debt.Obs10) : ℚ := specRecenter o.vol_slope_norm

/-- Spec: calm slope, re-centered. -/
def calm_slope (o : Debt.Obs10) : ℚ := specRecenter o.calm_slope_norm

/-- Spec derived quantity:
increase_pressure = (0.35 - leverage)*2.0 + (coverage - 0.55)*1.5
+ (calm - calm_mean)*0.8 - |vol_slope|*0.6 - |calm_slope|*0.4. -/
def increase_pressure (o : Debt.Obs10) : ℚ :=
  (0.35 - leverage o) * 2.0 + (coverage o - 0.55) * 1.5
    + (calm o - calm_mean o) * 0.8 - |vol_slope o| * 0.6 - |calm_slope o| * 0.4

/-- Spec derived quantity:
decrease_pressure = (leverage - 0.65)*2.0 + (0.45 - coverage)*1.7
+ (vol_ratio - vol_mean)*0.9 + max(0, leverage_slope)*0.8 + max(0, vol_slope)*0.6. -/
def decrease_pressure (o : Debt.Obs10) : ℚ :=
  (leverage o - 0.65) * 2.0 + (0.45 - coverage o) * 1.7
    + (volRat o - vol_mean o) * 0.9 + max 0 (leverage_slope o) * 0.8 + max 0 (vol_slope o) * 0.6

/-- Spec derived quantity: leverage_gap = leverage_mean - leverage. -/
def leverage_gap (o : Debt.Obs10) : ℚ := leverage_mean o - leverage o

/-- Spec derived quantity: gap_abs. -/
def gap_abs (o : Debt.Obs10) : ℚ := |leverage_gap o|

/-- Spec derived quantity: calm_delta. -/
def calm_delta (o : Debt.Obs10) : ℚ := |calm o - calm_mean o|

/-- Spec derived quantity: leverage_actual = 1.8 + leverage * 0.4. -/
def leverage_actual (o : Debt.Obs10) : ℚ := 1.8 + leverage o * 0.4

/-- The spec's ordered if/else-if chain of rules 1-10 (section 4.4), with the
exact thresholds it lists, first match wins; rule 10 holds the last action
when both slope magnitudes are below 0.05 and otherwise defaults to action 1
regardless of last_action. -/
def specDecideAction (o : Debt.Obs10) (last_action : ℤ) : ℤ :=
  if coverage o > 0.65 ∧ volRat o < 0.9 then 2
  else if coverage o < 0.48 ∨ volRat o > 0.95 then 3
  else if leverage_slope o > 0.12 ∨ vol_slope o > 0.12 then 3
  else if leverage_slope o < -0.12 ∨ vol_slope o < -0.12 then 2
  else if gap_abs o < 0.02 ∧ calm_delta o < 0.03 ∧ |volRat o - vol_mean o| < 0.03 then 1
  else if leverage_actual o < 1.9 ∧ coverage o ≥ 0.52 then 2
  else if leverage_actual o > 2.1 ∨ coverage o ≤ 0.42 then 3
  else if increase_pressure o > 0.4 ∧ decrease_pressure o < 0.2 then 2
  else if decrease_pressure o > 0.3 ∧ increase_pressure o < 0.25 then 3
  else if |leverage_slope o| < 0.05 ∧ |vol_slope o| < 0.05 then last_action
  else 1

end Spec

namespace Alm

/-- Maximum entry of a rational list (0 on the empty list, which the source
never produces: the action head has action_dim outputs). -/
def listMax : List ℚ → ℚ
  | [] => 0
  | [x] => x
  | x :: y :: ys => max x (listMax (y :: ys))

/-- Index of the first maximal entry, the CPU behaviour of `torch.argmax`
used by `actor.act`: ties break toward the lowest index. -/
def idxOfMax : List ℚ → ℕ
  | [] => 0
  | [_] => 0
  | x :: y :: ys => if x < listMax (y :: ys) then idxOfMax (y :: ys) + 1 else 0

/-- Method `actor.act` from src/agents/alm/model.py with deterministic=True: the
network logits are abstracted as a score function of the observation; the
`Categorical(logits=logits)` construction normalises the scores by
subtracting a per-call scalar (the log-sum-exp), abstracted as `c`; the
action is `torch.argmax` over the normalised scores. No memory argument
exists; the function is pure in the observation. -/
def actDeterministic (scores : List ℚ → List ℚ) (c : ℚ) (obs : List ℚ) : ℕ :=
  idxOfMax ((scores obs).map (fun v => v - c))

/-- Conversion performed by `torch.tensor(obs)` inside `actor.act` on a
JSON-decoded list: numbers and booleans convert, anything else raises,
surfacing as the descriptive message of the caught exception. Modelled with
a representative message. -/
def torchConvert : List JVal → Except String (List FVal)
  | [] => Except.ok []
  | x :: xs =>
    match x with
    | JVal.num v => (torchConvert xs).map (fun l => v :: l)
    | JVal.b bv => (torchConvert xs).map (fun l => (if bv then FVal.fin 1 else FVal.fin 0) :: l)
    | _ => Except.error "could not convert to tensor"

/-- The whole evaluator call of the alm dispatcher: tensor conversion
followed by the deterministic arg-max policy (scores abstracted). -/
def almActModel (scores : List FVal → List ℚ) (c : ℚ) (xs : List JVal) : Except String ℤ :=
  (torchConvert xs).map (fun l => (idxOfMax ((scores l).map (fun v => v - c)) : ℤ))

/-- One parsed payload through `main` of src/agents/alm/inference.py:
reset and unknown commands as in the debt dispatcher; infer validates only
that obs is a list of length `agent.obs_dim = 4`, then calls the evaluator
inside try/except, reporting `str(exc)` on failure. The agent carries no
session memory. -/
def almStep (evalAct : List JVal → Except String ℤ) (payload : List (String × JVal)) : Resp :=
  let cmd := getField payload "type"
  if strCmd cmd "reset" then Resp.statusReset
  else if !(strCmd cmd "infer") then Resp.err "unknown_command"
  else
    match getField payload "obs" with
    | some (JVal.arr xs) =>
      if xs.length ≠ 4 then Resp.err "invalid_observation"
      else
        match evalAct xs with
        | Except.ok a => Resp.action a
        | Except.error m => Resp.err m
    | _ => Resp.err "invalid_observation"

/-- The stdin loop of the alm `main` over a finite list of raw lines. -/
def almRun (evalAct : List JVal → Except String ℤ) : List RawLine → List Resp
  | [] => []
  | RawLine.blank :: rest => almRun evalAct rest
  | RawLine.malformed :: rest => Resp.err "invalid_json" :: almRun evalAct rest
  | RawLine.parsed p :: rest => almStep evalAct p :: almRun evalAct rest

end Alm

namespace Rec

/-- The recurrent memory: the `(h, c)` pair produced by
`reccurentActor.init_hidden`, zeros of width 256. -/
def Hidden : Type := List ℚ × List ℚ

/-- Method `init_hidden`: the all-zero memory pair. -/
def initHidden : Hidden := (List.replicate 256 0, List.replicate 256 0)

/-- Method `reccurentActor.forward` from src/agents/debt/model.py over a sequence of
observations: the feature extractor `featx` is applied per position, the LSTM
`cell` is folded along the sequence threading the hidden state, and the
policy/action heads `head` map each LSTM output to a score vector; returns
the per-position score vectors and the final hidden state. The numeric
layers are abstracted as component functions. -/
def recForward {H : Type} (featx : List ℚ → List ℚ) (cell : List ℚ → H → List ℚ × H)
    (head : List ℚ → List ℚ) : List (List ℚ) → H → List (List ℚ) × H
  | [], h => ([], h)
  | x :: xs, h =>
    let s := cell (featx x) h
    let r := recForward featx cell head xs s.2
    (head s.1 :: r.1, r.2)

/-- Method `reccurentActor.act`: the single observation goes through `forward` as a
one-step sequence against the carried hidden state; the score vector at the
last position (`logits[:, -1, :]`) parameterises a Categorical distribution,
and the action is drawn from it — `sample` is one realization of
`Categorical(logits=...).sample()`. Since softmax probabilities are strictly
positive, every index is a possible realization. The source also returns the
log-probability of the drawn action, which carries no extra decision
information and is omitted. -/
def recAct {H : Type} (featx : List ℚ → List ℚ) (cell : List ℚ → H → List ℚ × H)
    (head : List ℚ → List ℚ) (sample : List ℚ → ℕ) (obs : List ℚ) (h : H) : ℕ × H :=
  let fw := recForward featx cell head [obs] h
  (sample (fw.1.getLastD []), fw.2)

/-- Modelled from the spec: no dispatcher for the recurrent variant exists
under src/ (only the model class in src/agents/debt/model.py). Per spec
sections 4.1-4.3 and 7, an infer call validates the 10-element observation,
then calls the evaluator with the current memory; on evaluator failure the
response carries the failure's descriptive message and the session
MemoryToken is reset to its initial zero state; reset restores the initial
memory. -/
def recStep (evalAct : List JVal → Hidden → Except String (ℤ × Hidden))
    (payload : List (String × JVal)) (h : Hidden) : Resp × Hidden :=
  let cmd := getField payload "type"
  if strCmd cmd "reset" then (Resp.statusReset, initHidden)
  else if !(strCmd cmd "infer") then (Resp.err "unknown_command", h)
  else
    match getField payload "obs" with
    | some (JVal.arr xs) =>
      if xs.length ≠ 10 then (Resp.err "invalid_observation", h)
      else
        match evalAct xs h with
        | Except.ok r => (Resp.action r.1, r.2)
        | Except.error m => (Resp.err m, initHidden)
    | _ => (Resp.err "invalid_observation", h)

/-- Modelled from the spec: the command loop of the recurrent variant,
identical in shape to the two dispatchers in src/ — every line is answered
and processing continues, threading the memory. -/
def recRun (evalAct : List JVal → Hidden → Except String (ℤ × Hidden)) :
    List RawLine → Hidden → List Resp × Hidden
  | [], h => ([], h)
  | RawLine.blank :: rest, h => recRun evalAct rest h
  | RawLine.malformed :: rest, h =>
    let r := recRun evalAct rest h
    (Resp.err "invalid_json" :: r.1, r.2)
  | RawLine.parsed p :: rest, h =>
    let s := recStep evalAct p h
    let r := recRun evalAct rest s.2
    (s.1 :: r.1, r.2)

end Rec

/-- The observation is rejected by the rule-based validator: not a list,
wrong length, or some element on which `float(...)` raises. -/
def debtObsRejected (v : JVal) : Prop :=
  match v with
  | JVal.arr xs => xs.length ≠ 10 ∨ ∃ e ∈ xs, pyFloat e = none
  | _ => True

/-- The observation is rejected by the feed-forward validator: not a list or
wrong length (element convertibility is not checked there). -/
def almObsRejected (v : JVal) : Prop :=
  match v with
  | JVal.arr xs => xs.length ≠ 4
  | _ => True

lemma decideTarget_eq_specChain (o : Debt.Obs10) (la : ℤ) :
    Debt.decideTarget o la = Spec.specDecideAction o la := by
  have hclampF : Spec.specClamp = Debt.clamp01 := by funext v; cases v <;> rfl
  have hrecF : Spec.specRecenter = Debt.zero_center := by funext v; cases v <;> rfl
  have hrange : Debt.LEVERAGE_RANGE = (0.4 : ℚ) := by
    norm_num [Debt.LEVERAGE_RANGE, Debt.LEVERAGE_TOP, Debt.LEVERAGE_BOTTOM]
  have hbot : Debt.LEVERAGE_BOTTOM + 0.1 = (1.9 : ℚ) := by norm_num [Debt.LEVERAGE_BOTTOM]
  have htop : Debt.LEVERAGE_TOP - 0.1 = (2.1 : ℚ) := by norm_num [Debt.LEVERAGE_TOP]
  have hact : Debt.leverage_actual o = 1.8 + Debt.clamp01 o.leverage_norm * 0.4 := by
    unfold Debt.leverage_actual Debt.cLeverage
    rw [hrange]
    rfl
  have htail : (if la = 2 ∨ la = 3 then (1 : ℤ) else 1) = 1 := by split_ifs <;> rfl
  unfold Debt.decideTarget Spec.specDecideAction
  rw [htail]
  simp only [Debt.rule6, Debt.rule7]
  rw [hact, hbot, htop]
  simp only [Debt.rule1, Debt.rule2, Debt.rule3, Debt.rule4, Debt.rule5,
    Debt.rule8, Debt.rule9, Debt.smallSlopes,
    Debt.cCoverage, Debt.cVolRat, Debt.cLeverage, Debt.cLeverageMean, Debt.cVolMean,
    Debt.cCalm, Debt.cCalmMean, Debt.sLeverage, Debt.sVol, Debt.sCalm,
    Debt.increase_pressure, Debt.decrease_pressure, Debt.gap_abs, Debt.leverage_gap,
    Debt.calm_delta,
    Spec.coverage, Spec.volRat, Spec.leverage, Spec.leverage_mean, Spec.vol_mean,
    Spec.calm, Spec.calm_mean, Spec.leverage_slope, Spec.vol_slope, Spec.calm_slope,
    Spec.increase_pressure, Spec.decrease_pressure, Spec.gap_abs, Spec.leverage_gap,
    Spec.calm_delta, Spec.leverage_actual, hclampF, hrecF]

lemma decideTarget_fallback_hold (o : Debt.Obs10) (la : ℤ)
    (h : Debt.fallbackReached o) (hs : Debt.smallSlopes o) :
    Debt.decideTarget o la = la := by
  obtain ⟨h1, h2, h3, h4, h5, h6, h7, h8, h9⟩ := h
  unfold Debt.decideTarget
  rw [if_neg h1, if_neg h2, if_neg h3, if_neg h4, if_neg h5, if_neg h6, if_neg h7,
    if_neg h8, if_neg h9, if_pos hs]

lemma decideTarget_fallback_default (o : Debt.Obs10) (la : ℤ)
    (h : Debt.fallbackReached o) (hs : ¬Debt.smallSlopes o) :
    Debt.decideTarget o la = 1 := by
  obtain ⟨h1, h2, h3, h4, h5, h6, h7, h8, h9⟩ := h
  unfold Debt.decideTarget
  rw [if_neg h1, if_neg h2, if_neg h3, if_neg h4, if_neg h5, if_neg h6, if_neg h7,
    if_neg h8, if_neg h9, if_neg hs]
  split_ifs <;> rfl

/-- C1: for every 10-element observation (any float values) and every current
last_action, the rule-based engine `_decide_action` returns exactly the
action of the spec's ordered if/else-if chain of rules 1-10, evaluated
first-match-wins over the clamped/re-centered fields and the derived
quantities with the exact thresholds the spec lists (0.65/0.9, 0.48/0.95,
0.12, 0.02/0.03, 1.9 and 0.52, 2.1 and 0.42, 0.4/0.2, 0.3/0.25). -/
theorem c1_decide_action_matches_spec_chain :
    ∀ (o : Debt.Obs10) (st : Option ℤ),
      (Debt.decide_action o st).1 = Spec.specDecideAction o (st.getD 1) := by
  intro o st
  exact decideTarget_eq_specChain o (st.getD 1)

/-- C2: the returned action is stored as the new last_action before the call
returns; consequently after a call returning 2, a next call reaching the
fallback branch with both slope magnitudes below 0.05 returns 2 again, while
a call reaching the fallback branch with some slope magnitude at least 0.05
returns 1 regardless of last_action. -/
theorem c2_last_action_stored_and_hysteresis :
    (∀ (o : Debt.Obs10) (st : Option ℤ),
      (Debt.decide_action o st).2 = some (Debt.decide_action o st).1)
    ∧ (∀ (o1 o2 : Debt.Obs10) (st : Option ℤ),
        (Debt.decide_action o1 st).1 = 2 → Debt.fallbackReached o2 → Debt.smallSlopes o2 →
        (Debt.decide_action o2 (Debt.decide_action o1 st).2).1 = 2)
    ∧ (∀ (o : Debt.Obs10) (st : Option ℤ),
        Debt.fallbackReached o → ¬Debt.smallSlopes o → (Debt.decide_action o st).1 = 1) := by
  refine ⟨fun o st => rfl, ?_, ?_⟩
  · intro o1 o2 st h2 hf hs
    have hst : (Debt.decide_action o1 st).2 = some 2 := by
      show some (Debt.decideTarget o1 (st.getD 1)) = some 2
      exact congrArg some h2
    rw [hst]
    exact decideTarget_fallback_hold o2 2 hf hs
  · intro o st hf hs
    exact decideTarget_fallback_default o (st.getD 1) hf hs

/-- A concrete observation firing rule 1 (coverage 0.7, vol quotient 0.8,
everything else neutral). -/
def obsRuleOne : Debt.Obs10 :=
  ⟨FVal.fin 0.5, FVal.fin 0.7, FVal.fin 0.5, FVal.fin 0.5, FVal.fin 0.8,
   FVal.fin 0.5, FVal.fin 0.5, FVal.fin 0.5, FVal.fin 0.5, FVal.fin 0.5⟩

/-- A concrete observation reaching the fallback branch with zero slopes
(leverage 0.5 against mean 0.6 blocks rule 5; nothing else fires). -/
def obsFallbackCalm : Debt.Obs10 :=
  ⟨FVal.fin 0.5, FVal.fin 0.5, FVal.fin 0.6, FVal.fin 0.5, FVal.fin 0.5,
   FVal.fin 0.5, FVal.fin 0.5, FVal.fin 0.5, FVal.fin 0.5, FVal.fin 0.5⟩

/-- A concrete observation reaching the fallback branch with volatility slope
re-centering to 0.06, above the 0.05 hysteresis band. -/
def obsFallbackMoving : Debt.Obs10 :=
  ⟨FVal.fin 0.5, FVal.fin 0.5, FVal.fin 0.6, FVal.fin 0.5, FVal.fin 0.5,
   FVal.fin 0.5, FVal.fin 0.53, FVal.fin 0.5, FVal.fin 0.5, FVal.fin 0.5⟩

/-- Witness for C2: rule 1 fires and returns 2, the follow-up fallback call
echoes 2, and a fallback call with a moving slope returns 1 despite
last_action 2. -/
theorem c2_witness :
    (Debt.decide_action obsRuleOne none).1 = 2
    ∧ (Debt.decide_action obsFallbackCalm (Debt.decide_action obsRuleOne none).2).1 = 2
    ∧ (Debt.decide_action obsFallbackMoving (some 2)).1 = 1 :=
  ⟨by with_unfolding_all decide,
   c2_last_action_stored_and_hysteresis.2.1 obsRuleOne obsFallbackCalm none
     (by with_unfolding_all decide) (by with_unfolding_all decide)
     (by with_unfolding_all decide),
   c2_last_action_stored_and_hysteresis.2.2 obsFallbackMoving (some 2)
     (by with_unfolding_all decide) (by with_unfolding_all decide)⟩

/-- C9: two consecutive resets both answer with the reset status, each leaves
the rule-based session memory cleared (so the last_action default read is 1),
and the state after two resets equals the state after one. -/
theorem c9_reset_idempotent :
    ∀ st : Option ℤ,
      Debt.runLines [RawLine.parsed mkReset, RawLine.parsed mkReset] st
        = ([Resp.statusReset, Resp.statusReset], none)
      ∧ (Debt.runLines [RawLine.parsed mkReset] st).2 = none
      ∧ (none : Option ℤ).getD 1 = 1
      ∧ (Debt.runLines [RawLine.parsed mkReset, RawLine.parsed mkReset] st).2
          = (Debt.runLines [RawLine.parsed mkReset] st).2 := by
  intro st
  exact ⟨rfl, rfl, rfl, rfl⟩

/-- C6: a malformed line makes both dispatchers emit the invalid_json error,
leave the session state untouched, and continue with the remaining lines
exactly as if the bad line never arrived. -/
theorem c6_invalid_json_keeps_state_and_continues :
    (∀ (rest : List RawLine) (st : Option ℤ),
      (Debt.runLines (RawLine.malformed :: rest) st).1
          = Resp.err "invalid_json" :: (Debt.runLines rest st).1
      ∧ (Debt.runLines (RawLine.malformed :: rest) st).2 = (Debt.runLines rest st).2)
    ∧ ∀ (e : List JVal → Except String ℤ) (rest : List RawLine),
        Alm.almRun e (RawLine.malformed :: rest) = Resp.err "invalid_json" :: Alm.almRun e rest :=
  ⟨fun rest st => ⟨rfl, rfl⟩, fun e rest => rfl⟩

set_option maxHeartbeats 1000000 in
lemma decideTarget_mem (o : Debt.Obs10) (la : ℤ) (hla : la = 1 ∨ la = 2 ∨ la = 3) :
    Debt.decideTarget o la = 1 ∨ Debt.decideTarget o la = 2 ∨ Debt.decideTarget o la = 3 := by
  unfold Debt.decideTarget
  split_ifs <;>
    first
      | exact hla
      | exact Or.inl rfl
      | exact Or.inr (Or.inl rfl)
      | exact Or.inr (Or.inr rfl)

lemma handle_command_state (p : List (String × JVal)) (st : Option ℤ) :
    (Debt.handle_command p st).2.2 = none ∨ (Debt.handle_command p st).2.2 = st ∨
      ∃ o, (Debt.handle_command p st).2.2 = some (Debt.decideTarget o (st.getD 1)) := by
  simp only [Debt.handle_command]
  split_ifs with h1 h2
  · exact Or.inl rfl
  · exact Or.inr (Or.inl rfl)
  · split
    · split_ifs with hlen
      · exact Or.inr (Or.inl rfl)
      · split
        · exact Or.inr (Or.inl rfl)
        · split
          · exact Or.inr (Or.inl rfl)
          · exact Or.inr (Or.inr ⟨_, rfl⟩)
    · exact Or.inr (Or.inl rfl)

lemma reachable_cases {st : Option ℤ} (h : Debt.Reachable st) :
    st = none ∨ st = some 1 ∨ st = some 2 ∨ st = some 3 := by
  induction h with
  | init => exact Or.inl rfl
  | step p st0 h0 ih =>
    rcases handle_command_state p st0 with hs | hs | ⟨o, hs⟩
    · exact Or.inl hs
    · rw [hs]; exact ih
    · have hla : st0.getD 1 = 1 ∨ st0.getD 1 = 2 ∨ st0.getD 1 = 3 := by
        rcases ih with rfl | rfl | rfl | rfl
        · exact Or.inl rfl
        · exact Or.inl rfl
        · exact Or.inr (Or.inl rfl)
        · exact Or.inr (Or.inr rfl)
      rcases decideTarget_mem o (st0.getD 1) hla with h1 | h1 | h1
      · exact Or.inr (Or.inl (by rw [hs, h1]))
      · exact Or.inr (Or.inr (Or.inl (by rw [hs, h1])))
      · exact Or.inr (Or.inr (Or.inr (by rw [hs, h1])))

lemma reachable_getD {st : Option ℤ} (h : Debt.Reachable st) :
    st.getD 1 = 1 ∨ st.getD 1 = 2 ∨ st.getD 1 = 3 := by
  rcases reachable_cases h with rfl | rfl | rfl | rfl
  · exact Or.inl rfl
  · exact Or.inl rfl
  · exact Or.inr (Or.inl rfl)
  · exact Or.inr (Or.inr rfl)

/-- C3: on every 10-element observation, whatever its float values (NaN,
infinities, out-of-range included) and on every session state the dispatcher
can reach, `_decide_action` evaluates totally (it is a plain function here,
so termination without raising is by construction), the returned action is in
the declared set {1, 2, 3}, and the stored last_action equals that returned
action, hence also lies in the set. -/
theorem c3_total_and_action_in_declared_set :
    ∀ (st : Option ℤ), Debt.Reachable st → ∀ o : Debt.Obs10,
      ((Debt.decide_action o st).1 = 1 ∨ (Debt.decide_action o st).1 = 2 ∨
        (Debt.decide_action o st).1 = 3)
      ∧ (Debt.decide_action o st).2 = some (Debt.decide_action o st).1 := by
  intro st h o
  exact ⟨decideTarget_mem o (st.getD 1) (reachable_getD h), rfl⟩

/-- A concrete observation full of non-finite and out-of-range floats. -/
def obsNonFinite : Debt.Obs10 :=
  ⟨FVal.fin 1.5, FVal.nan, FVal.inf, FVal.ninf, FVal.fin (-2),
   FVal.fin 0.5, FVal.nan, FVal.fin 3, FVal.fin 0.5, FVal.inf⟩

/-- Witness for C3 at the initial session state and an observation of
non-finite and out-of-range floats. -/
theorem c3_witness :
    ((Debt.decide_action obsNonFinite none).1 = 1 ∨
      (Debt.decide_action obsNonFinite none).1 = 2 ∨
      (Debt.decide_action obsNonFinite none).1 = 3)
    ∧ (Debt.decide_action obsNonFinite none).2 = some (Debt.decide_action obsNonFinite none).1 :=
  c3_total_and_action_in_declared_set none Debt.Reachable.init obsNonFinite

lemma pyFloats_eq_none {xs : List JVal} (h : ∃ e ∈ xs, pyFloat e = none) :
    Debt.pyFloats xs = none := by
  induction xs with
  | nil => simp at h
  | cons a t ih =>
    rcases h with ⟨e, he, hn⟩
    rcases List.mem_cons.mp he with rfl | hmem
    · simp [Debt.pyFloats, hn]
    · cases hpa : pyFloat a with
      | none => simp [Debt.pyFloats, hpa]
      | some v => simp [Debt.pyFloats, hpa, ih ⟨e, hmem, hn⟩]

lemma handle_command_rejects {v : JVal} {st : Option ℤ} (h : debtObsRejected v) :
    Debt.handle_command (mkInfer v) st = (false, Resp.err "invalid_observation", st) := by
  cases v with
  | arr xs =>
    rcases h with hlen | hbad
    · simp [Debt.handle_command, mkInfer, getField, strCmd, Debt.OBS_DIM, hlen]
    · by_cases hlen : xs.length = 10
      · simp [Debt.handle_command, mkInfer, getField, strCmd, Debt.OBS_DIM, hlen,
          pyFloats_eq_none hbad]
      · simp [Debt.handle_command, mkInfer, getField, strCmd, Debt.OBS_DIM, hlen]
  | null => rfl
  | b x => cases x <;> rfl
  | num v2 => rfl
  | str s => rfl
  | obj fs => rfl

/-- C4 counterexample: a 4-element observation containing `null` (an element
Python cannot convert to a real number) passes the feed-forward dispatcher's
validation — which only checks list-ness and length — reaches the evaluator,
and is answered with the tensor-conversion failure message caught by the
try/except, not with invalid_observation, contradicting the claim for the
feed-forward agent. -/
theorem c4_counterexample :
    Alm.almStep (Alm.almActModel (fun l => [0, 0]) 0)
        (mkInfer (JVal.arr
          [JVal.null, JVal.num (FVal.fin 0), JVal.num (FVal.fin 0), JVal.num (FVal.fin 0)]))
      = Resp.err "could not convert to tensor"
    ∧ Resp.err "could not convert to tensor" ≠ Resp.err "invalid_observation" :=
  ⟨rfl, by decide⟩

/-- C4 amended: the rule-based dispatcher rejects non-list, wrong-length and
non-convertible observations with invalid_observation, leaving the session
state untouched; the feed-forward dispatcher rejects non-list and
wrong-length observations with invalid_observation before any evaluator call
(the response is independent of the evaluator; the agent carries no session
memory), but does not check element convertibility. -/
theorem c4_amended_validation :
    (∀ (v : JVal) (st : Option ℤ), debtObsRejected v →
      Debt.handle_command (mkInfer v) st = (false, Resp.err "invalid_observation", st))
    ∧ ∀ (e : List JVal → Except String ℤ) (v : JVal), almObsRejected v →
        Alm.almStep e (mkInfer v) = Resp.err "invalid_observation" := by
  refine ⟨fun v st h => handle_command_rejects h, ?_⟩
  intro e v h
  cases v with
  | arr xs =>
    rw [almObsRejected] at h
    simp [Alm.almStep, mkInfer, getField, strCmd, h]
  | null => rfl
  | b x => rfl
  | num v2 => rfl
  | str s => rfl
  | obj fs => rfl

/-- Witness for the amended C4: a 9-element observation is rejected by the
rule-based dispatcher with the state untouched, and a non-list observation is
rejected by the feed-forward dispatcher whatever the evaluator. -/
theorem c4_witness :
    Debt.handle_command (mkInfer (JVal.arr (List.replicate 9 (JVal.num (FVal.fin 0))))) none
      = (false, Resp.err "invalid_observation", none)
    ∧ Alm.almStep (fun l => Except.ok 0) (mkInfer JVal.null) = Resp.err "invalid_observation" :=
  ⟨c4_amended_validation.1 _ none (Or.inl (by decide)), c4_amended_validation.2 _ _ trivial⟩

lemma pyFloat_pep515_samples :
    pyFloat (JVal.str "1_0") = some (FVal.fin 10)
    ∧ pyFloat (JVal.str "1_000.2_5") = some (FVal.fin (mkRat 4001 4))
    ∧ pyFloat (JVal.str " 1e1_0 ") = some (FVal.fin 10000000000)
    ∧ pyFloat (JVal.str ".5_5") = some (FVal.fin (mkRat 11 20))
    ∧ pyFloat (JVal.str "1__0") = none
    ∧ pyFloat (JVal.str "_1") = none
    ∧ pyFloat (JVal.str "1_") = none
    ∧ pyFloat (JVal.str "1_.5") = none
    ∧ pyFloat (JVal.str "1._5") = none
    ∧ pyFloat (JVal.str "1_e5") = none
    ∧ pyFloat (JVal.str "1e_5") = none := by
  decide

lemma pyFloat_unicode_samples :
    pyFloat (JVal.str "١٢٣") = some (FVal.fin 123)
    ∧ pyFloat (JVal.str "１２３") = some (FVal.fin 123)
    ∧ pyFloat (JVal.str "١_٢") = some (FVal.fin 12)
    ∧ pyFloat (JVal.str "𝟿") = some (FVal.fin 9)
    ∧ pyFloat (JVal.str " 1.5　") = some (FVal.fin (mkRat 3 2))
    ∧ pyFloat (JVal.str "²") = none
    ∧ pyFloat (JVal.str "1 2") = none := by
  decide

lemma pyFloat_whitespace_samples :
    pyFloat (JVal.str "	1.5
") = some (FVal.fin (mkRat 3 2))
    ∧ pyFloat (JVal.str "  +inf  ") = some FVal.inf
    ∧ pyFloat (JVal.str "\x0b5\x0c") = some (FVal.fin 5)
    ∧ pyFloat (JVal.str "\xa05") = some (FVal.fin 5)
    ∧ pyFloat (JVal.str "\x855") = some (FVal.fin 5)
    ∧ pyFloat (JVal.str "\x1c5\x1f") = none
    ∧ pyFloat (JVal.str "١\x1c") = none := by
  decide

lemma pyFloat_literal_samples :
    pyFloat (JVal.str "0.5") = some (FVal.fin (mkRat 1 2))
    ∧ pyFloat (JVal.str " -1.5e2") = some (FVal.fin (-150))
    ∧ pyFloat (JVal.str "5.e2") = some (FVal.fin 500)
    ∧ pyFloat (JVal.str ".5e-1") = some (FVal.fin (mkRat 1 20))
    ∧ pyFloat (JVal.str "+InFiNiTy") = some FVal.inf
    ∧ pyFloat (JVal.str "-NaN") = some FVal.nan
    ∧ pyFloat (JVal.str "abc") = none
    ∧ pyFloat (JVal.str ".") = none
    ∧ pyFloat (JVal.str "1e") = none
    ∧ pyFloat (JVal.str "") = none
    ∧ pyFloat (JVal.b true) = some (FVal.fin 1)
    ∧ pyFloat JVal.null = none := by
  decide

set_option maxHeartbeats 2000000

lemma idxOfMax_lt_length : ∀ (l : List ℚ), l ≠ [] → Alm.idxOfMax l < l.length := by
  intro l
  induction l with
  | nil => intro h; exact absurd rfl h
  | cons x xs ih =>
    intro _
    cases xs with
    | nil => simp [Alm.idxOfMax]
    | cons y ys =>
      rw [Alm.idxOfMax]
      split_ifs with h
      · have := ih (by simp)
        simp only [List.length_cons] at this ⊢
        omega
      · simp

lemma getD_idxOfMax : ∀ (l : List ℚ), l ≠ [] → l.getD (Alm.idxOfMax l) 0 = Alm.listMax l := by
  intro l
  induction l with
  | nil => intro h; exact absurd rfl h
  | cons x xs ih =>
    intro _
    cases xs with
    | nil => simp [Alm.idxOfMax, Alm.listMax]
    | cons y ys =>
      rw [Alm.idxOfMax, Alm.listMax]
      split_ifs with h
      · rw [List.getD_cons_succ, ih (by simp), max_eq_right (le_of_lt h)]
      · rw [List.getD_cons_zero, max_eq_left (not_lt.mp h)]

lemma getD_lt_listMax_of_lt_idx :
    ∀ (l : List ℚ) (j : ℕ), j < Alm.idxOfMax l → l.getD j 0 < Alm.listMax l := by
  intro l
  induction l with
  | nil => intro j hj; simp [Alm.idxOfMax] at hj
  | cons x xs ih =>
    intro j hj
    cases xs with
    | nil => simp [Alm.idxOfMax] at hj
    | cons y ys =>
      rw [Alm.idxOfMax] at hj
      rw [Alm.listMax]
      split_ifs at hj with h
      · rw [max_eq_right (le_of_lt h)]
        cases j with
        | zero => simpa using h
        | succ k =>
          rw [List.getD_cons_succ]
          exact ih k (by omega)
      · simp at hj

lemma getD_le_listMax : ∀ (l : List ℚ) (j : ℕ), j < l.length → l.getD j 0 ≤ Alm.listMax l := by
  intro l
  induction l with
  | nil => intro j hj; simp at hj
  | cons x xs ih =>
    intro j hj
    cases xs with
    | nil =>
      cases j with
      | zero => simp [Alm.listMax]
      | succ k =>
        simp only [List.length_cons, List.length_nil] at hj
        omega
    | cons y ys =>
      rw [Alm.listMax]
      cases j with
      | zero => rw [List.getD_cons_zero]; exact le_max_left _ _
      | succ k =>
        rw [List.getD_cons_succ]
        exact le_trans (ih k (by simpa using hj)) (le_max_right _ _)

lemma listMax_map_sub (c : ℚ) :
    ∀ (l : List ℚ), l ≠ [] → Alm.listMax (l.map (fun v => v - c)) = Alm.listMax l - c := by
  intro l
  induction l with
  | nil => intro h; exact absurd rfl h
  | cons x xs ih =>
    intro _
    cases xs with
    | nil => simp [Alm.listMax]
    | cons y ys =>
      rw [List.map_cons, List.map_cons, Alm.listMax, Alm.listMax]
      have ihy := ih (by simp)
      rw [List.map_cons] at ihy
      rw [ihy]
      exact max_sub_sub_right x (Alm.listMax (y :: ys)) c

lemma idxOfMax_map_sub (c : ℚ) :
    ∀ (l : List ℚ), Alm.idxOfMax (l.map (fun v => v - c)) = Alm.idxOfMax l := by
  intro l
  induction l with
  | nil => rfl
  | cons x xs ih =>
    cases xs with
    | nil => rfl
    | cons y ys =>
      rw [List.map_cons, List.map_cons, Alm.idxOfMax, Alm.idxOfMax]
      rw [List.map_cons] at ih
      rw [ih]
      have hmx : Alm.listMax ((y - c) :: ys.map (fun v => v - c))
          = Alm.listMax (y :: ys) - c := by
        have := listMax_map_sub c (y :: ys) (by simp)
        rw [List.map_cons] at this
        exact this
      rw [hmx]
      by_cases h : x < Alm.listMax (y :: ys)
      · rw [if_pos (by linarith), if_pos h]
      · rw [if_neg (by intro hc; apply h; linarith), if_neg h]

/-- C8: the feed-forward `actor.act` with deterministic evaluation returns
the index of the first maximal entry of the score vector computed from the
observation alone: the Categorical normalisation (subtracting a scalar from
every logit) never changes the arg-max, the returned index is in range, the
entry there is the maximum, every earlier entry is strictly below it (ties
break toward the lowest index) and no entry exceeds it. The function takes no
memory argument and is pure in the observation, so identical observations
give identical actions by construction. -/
theorem c8_feedforward_argmax_deterministic :
    ∀ (scores : List ℚ → List ℚ) (c : ℚ) (obs : List ℚ), scores obs ≠ [] →
      Alm.actDeterministic scores c obs = Alm.idxOfMax (scores obs)
      ∧ Alm.idxOfMax (scores obs) < (scores obs).length
      ∧ (scores obs).getD (Alm.idxOfMax (scores obs)) 0 = Alm.listMax (scores obs)
      ∧ (∀ j, j < Alm.idxOfMax (scores obs) → (scores obs).getD j 0 < Alm.listMax (scores obs))
      ∧ (∀ j, j < (scores obs).length → (scores obs).getD j 0 ≤ Alm.listMax (scores obs)) := by
  intro scores c obs h
  refine ⟨?_, idxOfMax_lt_length _ h, getD_idxOfMax _ h,
    fun j hj => getD_lt_listMax_of_lt_idx _ j hj, fun j hj => getD_le_listMax _ j hj⟩
  unfold Alm.actDeterministic
  exact idxOfMax_map_sub c (scores obs)

/-- Witness for C8 on the score vector [1, 5, 5, 2] with normalisation
constant 3: the tie between the two maximal entries breaks to index 1. -/
theorem c8_witness :
    Alm.idxOfMax [(1 : ℚ), 5, 5, 2] = 1
    ∧ Alm.actDeterministic (fun l => [(1 : ℚ), 5, 5, 2]) 3 [] = Alm.idxOfMax [(1 : ℚ), 5, 5, 2] :=
  ⟨by with_unfolding_all decide,
   (c8_feedforward_argmax_deterministic (fun l => [(1 : ℚ), 5, 5, 2]) 3 [] (by decide)).1⟩

/-- The identity LSTM cell used in the C5 counterexample. -/
def cexCell : List ℚ → Unit → List ℚ × Unit := fun v u => (v, u)

/-- One realization of `Categorical(logits=...).sample()` that draws index 0.
Softmax probabilities are strictly positive for every finite logit vector, so
drawing index 0 on logits [0, 1] has positive probability: this is a possible
outcome of the sampling the source performs. -/
def cexSample : List ℚ → ℕ := fun l => 0

/-- C5 counterexample: with identity components, logits [0, 1] at the last
position and a sampling outcome drawing index 0, `reccurentActor.act`
returns 0 while the arg-max of the last-position score vector is 1 — the
recurrent variant samples from the Categorical distribution
(`dist.sample()`), it does not take the arg-max. -/
theorem c5_counterexample :
    (Rec.recAct id cexCell id cexSample [0, 1] ()).1 = 0
    ∧ Alm.idxOfMax ((Rec.recForward id cexCell id [[0, 1]] ()).1.getLastD []) = 1
    ∧ (0 : ℕ) ≠ 1 := by
  refine ⟨rfl, ?_, by decide⟩
  show Alm.idxOfMax [0, 1] = 1
  with_unfolding_all decide

/-- C5 amended: `reccurentActor.act` treats the single observation as a
one-step sequence against the carried memory — the forward pass on `[obs]`
is exactly one feature-extraction, one LSTM cell step from the carried hidden
state and one head application — and returns the action drawn by the
Categorical sampling from the score vector at the last (only) position,
together with the updated memory produced by that cell step. The arg-max
claim holds only for the feed-forward variant. -/
theorem c5_amended_act_samples_last_position :
    ∀ {H : Type} (featx : List ℚ → List ℚ) (cell : List ℚ → H → List ℚ × H)
      (head : List ℚ → List ℚ) (sample : List ℚ → ℕ) (obs : List ℚ) (h : H),
      Rec.recForward featx cell head [obs] h
        = ([head (cell (featx obs) h).1], (cell (featx obs) h).2)
      ∧ Rec.recAct featx cell head sample obs h
          = (sample (head (cell (featx obs) h).1), (cell (featx obs) h).2) := by
  intro H featx cell head sample obs h
  exact ⟨rfl, rfl⟩

/-- C7: on an evaluator failure during infer, the recurrent dispatcher
(modelled from the spec, see `recStep`) answers with the failure's message
and resets the memory to its initial zero state, and its loop continues with
the next line; the feed-forward dispatcher answers with the caught message
and continues (it has no memory); and for the rule-based agent no evaluator
failure can occur once validation passed: the call always succeeds with an
action. -/
theorem c7_failure_recovery_and_rule_based_totality :
    (∀ (e : List JVal → Rec.Hidden → Except String (ℤ × Rec.Hidden)) (xs : List JVal)
        (h : Rec.Hidden) (m : String), xs.length = 10 → e xs h = Except.error m →
      Rec.recStep e (mkInfer (JVal.arr xs)) h = (Resp.err m, Rec.initHidden))
    ∧ (∀ (e : List JVal → Rec.Hidden → Except String (ℤ × Rec.Hidden))
        (p : List (String × JVal)) (rest : List RawLine) (h : Rec.Hidden),
      Rec.recRun e (RawLine.parsed p :: rest) h
        = ((Rec.recStep e p h).1 :: (Rec.recRun e rest (Rec.recStep e p h).2).1,
           (Rec.recRun e rest (Rec.recStep e p h).2).2))
    ∧ (∀ (e : List JVal → Except String ℤ) (xs : List JVal) (m : String),
        xs.length = 4 → e xs = Except.error m →
        Alm.almStep e (mkInfer (JVal.arr xs)) = Resp.err m)
    ∧ (∀ (xs : List JVal) (o : Debt.Obs10) (st : Option ℤ),
        xs.length = 10 → Debt.parseObs xs = some o →
        Debt.handle_command (mkInfer (JVal.arr xs)) st
          = (true, Resp.action (Debt.decideTarget o (st.getD 1)),
             some (Debt.decideTarget o (st.getD 1)))) := by
  refine ⟨?_, ?_, ?_, ?_⟩
  · intro e xs h m hlen herr
    simp [Rec.recStep, mkInfer, getField, strCmd, hlen, herr]
  · intro e p rest h
    rfl
  · intro e xs m hlen herr
    simp [Alm.almStep, mkInfer, getField, strCmd, hlen, herr]
  · intro xs o st hlen hparse
    rcases Option.bind_eq_some.mp hparse with ⟨l, hl, ho⟩
    simp [Debt.handle_command, mkInfer, getField, strCmd, Debt.OBS_DIM, hlen, hl, ho,
      Debt.decide_action]

/-- An evaluator that always fails, standing for a numeric failure inside the
recurrent model call. -/
def recFailEval : List JVal → Rec.Hidden → Except String (ℤ × Rec.Hidden) :=
  fun xs h => Except.error "boom"

/-- The all-neutral observation (every field 0.5). -/
def obsNeutral : Debt.Obs10 :=
  ⟨FVal.fin 0.5, FVal.fin 0.5, FVal.fin 0.5, FVal.fin 0.5, FVal.fin 0.5,
   FVal.fin 0.5, FVal.fin 0.5, FVal.fin 0.5, FVal.fin 0.5, FVal.fin 0.5⟩

/-- Witness for C7: a failing recurrent evaluator call resets the memory to
zeros and reports the message; a failing feed-forward call reports its
message; a validated rule-based infer succeeds. -/
theorem c7_witness :
    Rec.recStep recFailEval
        (mkInfer (JVal.arr (List.replicate 10 (JVal.num (FVal.fin 0))))) Rec.initHidden
      = (Resp.err "boom", Rec.initHidden)
    ∧ Alm.almStep (fun xs => Except.error "shape mismatch")
        (mkInfer (JVal.arr (List.replicate 4 (JVal.num (FVal.fin 0)))))
      = Resp.err "shape mismatch"
    ∧ Debt.handle_command
        (mkInfer (JVal.arr (List.replicate 10 (JVal.num (FVal.fin 0.5))))) none
      = (true, Resp.action (Debt.decideTarget obsNeutral 1),
         some (Debt.decideTarget obsNeutral 1)) :=
  ⟨c7_failure_recovery_and_rule_based_totality.1 recFailEval _ Rec.initHidden "boom"
     (by decide) rfl,
   c7_failure_recovery_and_rule_based_totality.2.2.1 _ _ "shape mismatch" (by decide) rfl,
   c7_failure_recovery_and_rule_based_totality.2.2.2 _ obsNeutral none (by decide) rfl⟩

end DlvSim
